import Mathlib

/-
Shallow embedding of the mcp-auth-google-calendar repository
(src/server.py and src/client.py) for checking its specification.

Conventions of the embedding:
- Python attribute lookup guarded by hasattr is modelled with Option:
  none stands for an absent attribute.
- A Python value that may be the constant None or a string is modelled as
  Option String; Python truthiness of such a value (None and "" are falsy)
  is the predicate truthy_str below.
- Exceptions are modelled with Except String, the String being str(e).
- Calls into third-party libraries (the Google API client, the chat
  completion API, the MCP connection) are modelled as explicit oracles
  passed in as function arguments, so that the repository code around them
  is total and executable.
-/

namespace GCal

/-- Python truthiness of a value that is either None or a string:
None and the empty string are falsy. -/
def truthy_str : Option String → Bool
  | none => false
  | some s => !(s == "")

/-- Rendering of a possibly-None string inside a Python f-string:
None prints as "None". -/
def py_str_of_opt : Option String → String
  | none => "None"
  | some s => s

/-! ## server.py: request context and user model -/

/-- The authenticated user object attached to the request
(token_info in get_calendar_service).

access_token_token is `some w` exactly when the object has an
access_token attribute whose value itself has a token attribute, and w is
the Python value of that token attribute (None or a string); this is the
condition tested by
`hasattr(token_info, "access_token") and hasattr(token_info.access_token, "token")`.

token models the direct token attribute read by
`getattr(token_info, "token", None)`: the outer Option is attribute
presence, the inner Option is the value (None or a string). -/
structure User where
  is_authenticated : Bool
  access_token_token : Option (Option String)
  token : Option (Option String)
deriving Repr, DecidableEq

/-- The request object; user = none models a request object without a
user attribute (the hasattr check in get_calendar_service). -/
structure Request where
  user : Option User
deriving Repr, DecidableEq

/-- ctx.request_context.request -/
structure RequestContext where
  request : Request
deriving Repr, DecidableEq

/-- The FastMCP Context as used by get_calendar_service:
request_context = none models a falsy ctx.request_context. -/
structure Context where
  request_context : Option RequestContext
deriving Repr, DecidableEq

/-- The access-token retrieval logic of get_calendar_service:
if both hasattr checks pass, take token_info.access_token.token,
otherwise `getattr(token_info, "token", None)`. The result is the Python
value bound to access_token (None or a string). -/
def extract_access_token (token_info : User) : Option String :=
  match token_info.access_token_token with
  | some w => w
  | none => token_info.token.getD none

/-! ## server.py: configuration and credentials -/

/-- The two Google OAuth configuration values read from the environment. -/
structure ServerConfig where
  google_client_id : String
  google_client_secret : String
deriving Repr, DecidableEq

/-- The google.oauth2.credentials.Credentials object as constructed by
get_calendar_service; refresh_token defaults to none as in the Python
constructor when the keyword is not passed. -/
structure Credentials where
  token : String
  refresh_token : Option String := none
  token_uri : String
  client_id : String
  client_secret : String
  scopes : List String
deriving Repr, DecidableEq

/-- The calendar API client returned by
`build("calendar", "v3", credentials=creds, cache_discovery=False)`,
modelled as a handle carrying the credentials it was built from. -/
structure CalendarService where
  credentials : Credentials
deriving Repr, DecidableEq

/-- googleapiclient.discovery.build, modelled as pure construction. -/
def build_calendar (creds : Credentials) : CalendarService := ⟨creds⟩

/-- The fallback scope list written inline in get_calendar_service. -/
def default_scopes : List String := ["https://www.googleapis.com/auth/calendar.events"]

/-- The body of the try block of get_calendar_service. provider_scopes is
`some l` when hasattr(auth_provider, "scopes") holds with scope list l,
none otherwise. -/
def get_calendar_service_inner (cfg : ServerConfig) (provider_scopes : Option (List String))
    (ctx : Context) : Except String CalendarService :=
  match ctx.request_context with
  | none => .error "No active request context found."
  | some req_ctx =>
    let request_obj := req_ctx.request
    match request_obj.user with
    | none => .error "No active authentication found. Please log in."
    | some token_info =>
      if !token_info.is_authenticated then
        .error "No active authentication found. Please log in."
      else
        let access_token := extract_access_token token_info
        if !truthy_str access_token then
          .error "Could not retrieve access token from user context."
        else
          .ok (build_calendar
            { token := access_token.getD ""
              token_uri := "https://oauth2.googleapis.com/token"
              client_id := cfg.google_client_id
              client_secret := cfg.google_client_secret
              scopes := provider_scopes.getD default_scopes })

/-- get_calendar_service: the except-Exception clause re-raises any error
from the body as `ToolError("System Authorization Failure: " + str(e))`.
An .error result models a raised ToolError with that message. -/
def get_calendar_service (cfg : ServerConfig) (provider_scopes : Option (List String))
    (ctx : Context) : Except String CalendarService :=
  match get_calendar_service_inner cfg provider_scopes ctx with
  | .ok s => .ok s
  | .error e => .error ("System Authorization Failure: " ++ e)

/-! ## server.py: module-level configuration validation -/

/-- The process environment: os.environ.get. -/
def Env : Type := String → Option String

/-- The module-level validation in server.py:
`if not all([GOOGLE_CLIENT_ID, GOOGLE_CLIENT_SECRET]): raise ValueError(...)`.
An .error result models the raised ValueError. -/
def server_config_check (env : Env) : Except String Unit :=
  let GOOGLE_CLIENT_ID := env "GOOGLE_CLIENT_ID"
  let GOOGLE_CLIENT_SECRET := env "GOOGLE_CLIENT_SECRET"
  if !(truthy_str GOOGLE_CLIENT_ID && truthy_str GOOGLE_CLIENT_SECRET) then
    .error "Missing required env variables: GOOGLE_CLIENT_ID or GOOGLE_CLIENT_SECRET."
  else
    .ok ()

/-- The module-level validation in client.py:
`if not OPENAI_API_KEY: raise ValueError("OPENAI_API_KEY not found in.env")`. -/
def client_config_check (env : Env) : Except String Unit :=
  let OPENAI_API_KEY := env "OPENAI_API_KEY"
  if !truthy_str OPENAI_API_KEY then
    .error "OPENAI_API_KEY not found in.env"
  else
    .ok ()

/-! ## server.py: tool results and the calendar API surface -/

/-- One content block of a ToolResult, e.g. a text block. -/
structure ContentBlock where
  type : String
  text : String
deriving Repr, DecidableEq

/-- fastmcp ToolResult as used here: a list of content blocks. -/
structure ToolResult where
  content : List ContentBlock
deriving Repr, DecidableEq

/-- `ToolResult(content=[{"type": "text", "text": t}])` -/
def text_result (t : String) : ToolResult := ⟨[⟨"text", t⟩]⟩

/-- The start field of a calendar event: a dict that may hold dateTime
and date keys (none = key absent). -/
structure EventStart where
  dateTime : Option String
  date : Option String
deriving Repr, DecidableEq

/-- A calendar event as consumed by list_upcoming_events: the code indexes
event["start"] unconditionally and reads summary with .get. -/
structure Event where
  start : EventStart
  summary : Option String
deriving Repr, DecidableEq

/-- The response of service.events().list(...).execute():
items = none models a response dict without an items key. -/
structure EventsResult where
  items : Option (List Event)
deriving Repr, DecidableEq

/-- The keyword arguments the code passes to service.events().list. -/
structure EventsQuery where
  calendarId : String
  timeMin : String
  maxResults : Int
  singleEvents : Bool
  orderBy : String
deriving Repr, DecidableEq

/-- The arguments dict of the list_upcoming_events tool; none models an
absent key (or a None value, which .get treats the same way here via
truthiness for time_min). -/
structure ListArguments where
  max_results : Option Int
  time_min : Option String
deriving Repr, DecidableEq

/-- The line formatted for one event, following
start = event["start"].get("dateTime", event["start"].get("date")) and
the f-string with the summary defaulted to No Title by .get. -/
def event_line (event : Event) : String :=
  let start : Option String :=
    match event.start.dateTime with
    | some s => some s
    | none => event.start.date
  "- " ++ py_str_of_opt start ++ ": " ++ event.summary.getD "No Title"

/-- The query built inside ListUpcomingEvents.run:
max_results = arguments.get("max_results", 10);
t_min = time_min if time_min else now (Python truthiness). -/
def list_upcoming_query (arguments : ListArguments) (now : String) : EventsQuery :=
  let max_results := arguments.max_results.getD 10
  let time_min := arguments.time_min
  let t_min := if truthy_str time_min then time_min.getD "" else now
  { calendarId := "primary"
    timeMin := t_min
    maxResults := max_results
    singleEvents := true
    orderBy := "startTime" }

/-- The effectful surroundings of ListUpcomingEvents.run: the outcome of
get_context(), the list API call as a function of the query it receives,
and the current UTC timestamp string. -/
structure ListEnv where
  ctx : Except String Context
  api : EventsQuery → Except String EventsResult
  now : String

/-- ListUpcomingEvents.run. Every exception raised in the try block
(get_context, the ToolError from get_calendar_service, the API call) is
caught and turned into a text result with the Google Calendar API Error
prefix; the function is total. -/
def list_upcoming_events_run (cfg : ServerConfig) (provider_scopes : Option (List String))
    (arguments : ListArguments) (env : ListEnv) : ToolResult :=
  match env.ctx with
  | .error e => text_result ("Google Calendar API Error: " ++ e)
  | .ok ctx =>
    match get_calendar_service cfg provider_scopes ctx with
    | .error e => text_result ("Google Calendar API Error: " ++ e)
    | .ok _service =>
      match env.api (list_upcoming_query arguments env.now) with
      | .error e => text_result ("Google Calendar API Error: " ++ e)
      | .ok events_result =>
        let events := events_result.items.getD []
        if events.isEmpty then
          text_result "No upcoming events found."
        else
          text_result (String.intercalate "\n" ("Upcoming events:" :: events.map event_line))

/-- The arguments dict of the create_event tool. -/
structure CreateArguments where
  summary : Option String
  start_time : Option String
  end_time : Option String
  description : Option String
deriving Repr, DecidableEq

/-- The event_body dict built by CreateEvent.run. -/
structure EventBody where
  summary : Option String
  description : String
  start_dateTime : Option String
  start_timeZone : String
  end_dateTime : Option String
  end_timeZone : String
deriving Repr, DecidableEq

/-- The event returned by service.events().insert(...).execute(). -/
structure InsertedEvent where
  htmlLink : Option String
deriving Repr, DecidableEq

/-- The effectful surroundings of CreateEvent.run. -/
structure CreateEnv where
  ctx : Except String Context
  insert : EventBody → Except String InsertedEvent

/-- Outcome of a tool run method: either it returns a ToolResult, or an
exception escapes to the caller. -/
inductive RunOutcome where
  | returned (r : ToolResult)
  | raised (e : String)
deriving Repr, DecidableEq

/-- CreateEvent.run. When get_context() itself raises, the except block
evaluates `f"Failed to create event for session \x7bctx.session_id\x7d: \x7be\x7d"`
with the local ctx never assigned, so the handler raises UnboundLocalError
and that exception escapes run; this is the raised branch below. In every
other error case the local ctx is bound and the handler returns a text
result with the Failed to create event prefix. -/
def create_event_run (cfg : ServerConfig) (provider_scopes : Option (List String))
    (arguments : CreateArguments) (env : CreateEnv) : RunOutcome :=
  let summary := arguments.summary
  let start_time := arguments.start_time
  let end_time := arguments.end_time
  let description := arguments.description.getD ""
  match env.ctx with
  | .error _ =>
    .raised "UnboundLocalError: local variable ctx referenced before assignment"
  | .ok ctx =>
    match get_calendar_service cfg provider_scopes ctx with
    | .error e => .returned (text_result ("Failed to create event: " ++ e))
    | .ok _service =>
      let event_body : EventBody :=
        { summary := summary
          description := description
          start_dateTime := start_time
          start_timeZone := "UTC"
          end_dateTime := end_time
          end_timeZone := "UTC" }
      match env.insert event_body with
      | .error e => .returned (text_result ("Failed to create event: " ++ e))
      | .ok event =>
        .returned (text_result ("Event created successfully. Link: " ++ py_str_of_opt event.htmlLink))

/-! ## server.py: tool registration -/

/-- A JSON value, used for the literal parameter schemas of the tools. -/
inductive Json where
  | null
  | bool (b : Bool)
  | num (n : Int)
  | str (s : String)
  | arr (elems : List Json)
  | obj (fields : List (String × Json))
deriving Repr

/-- The declared interface of a registered tool: its name, description
and parameter schema as set on the Tool subclass. -/
structure RegisteredTool where
  name : String
  description : String
  parameters : Json
deriving Repr

/-- The class attributes of ListUpcomingEvents. -/
def list_upcoming_events_tool : RegisteredTool :=
  { name := "list_upcoming_events"
    description := "List upcoming events from the primary calendar."
    parameters := .obj
      [("type", .str "object"),
       ("description", .str "Get upcoming calendar events"),
       ("properties", .obj
         [("max_results", .obj
           [("type", .str "integer"),
            ("description", .str "Max events to return. Default 10.")]),
          ("time_min", .obj
           [("type", .str "string"),
            ("description", .str "Start time in ISO format (YYYY-MM-DDTHH:MM:SSZ). Defaults to now.")])]),
       ("additionalProperties", .bool true)] }

/-- The class attributes of CreateEvent. -/
def create_event_tool : RegisteredTool :=
  { name := "create_event"
    description := "Create a new event in the primary calendar."
    parameters := .obj
      [("type", .str "object"),
       ("description", .str "Create a calendar event"),
       ("required", .arr [.str "summary", .str "start_time", .str "end_time"]),
       ("properties", .obj
         [("summary", .obj
           [("type", .str "string"),
            ("description", .str "The title of the event.")]),
          ("start_time", .obj
           [("type", .str "string"),
            ("description", .str "Start time in ISO 8601 format (e.g., 2024-12-31T10:00:00Z).")]),
          ("end_time", .obj
           [("type", .str "string"),
            ("description", .str "End time in ISO 8601 format.")]),
          ("description", .obj
           [("type", .str "string"),
            ("description", .str "Description/body of the event."),
            ("default", .str "")])]),
       ("additionalProperties", .bool true)] }

/-- The tools added to the server by the two mcp.add_tool calls, in
program order: mcp.add_tool(ListUpcomingEvents()); mcp.add_tool(CreateEvent()). -/
def registered_tools : List RegisteredTool :=
  [list_upcoming_events_tool, create_event_tool]

/-! ## client.py: tool schema translation -/

/-- An MCP tool as returned by mcp_client.list_tools(). -/
structure MCPTool where
  name : String
  description : String
  inputSchema : Json
deriving Repr

/-- The function part of an OpenAI tool dict. -/
structure OpenAIFunction where
  name : String
  description : String
  parameters : Json
deriving Repr

/-- One OpenAI tool dict produced by convert_mcp_to_openai_tools. -/
structure OpenAITool where
  type : String
  function : OpenAIFunction
deriving Repr

/-- convert_mcp_to_openai_tools: starts from an empty list and appends
one dict per input tool, in order. -/
def convert_mcp_to_openai_tools (mcp_tools : List MCPTool) : List OpenAITool :=
  mcp_tools.foldl
    (fun openai_tools tool =>
      openai_tools ++ [{ type := "function"
                         function := { name := tool.name
                                       description := tool.description
                                       parameters := tool.inputSchema } }])
    []

/-! ## client.py: one turn of the chat loop -/

/-- tool_call.function of an OpenAI tool call. -/
structure ToolCallFunction where
  name : String
  arguments : String
deriving Repr, DecidableEq

/-- One tool call requested by the completion response. -/
structure ToolCall where
  id : String
  function : ToolCallFunction
deriving Repr, DecidableEq

/-- The assistant message of a completion response; tool_calls = [] models
a falsy response_msg.tool_calls. -/
structure AssistantMessage where
  content : Option String
  tool_calls : List ToolCall
deriving Repr, DecidableEq

/-- An entry of the messages list of the chat loop. -/
inductive ChatMessage where
  | assistantMsg (m : AssistantMessage)
  | toolMsg (tool_call_id : String) (name : String) (content : String)
  | assistantText (content : Option String)
  | userMsg (content : String)
deriving Repr, DecidableEq

/-- The output string for one tool call:
`result.content[0].text if result.content else "Success"` on success, and
`f"Error: ..."` when call_tool raised; the result of call_tool is
modelled by its list of text blocks. -/
def tool_output (call_result : Except String (List String)) : String :=
  match call_result with
  | .error e => "Error: " ++ e
  | .ok content =>
    match content with
    | [] => "Success"
    | t :: _ => t

/-- How one turn of the inner while loop ends: completed normally, or
aborted by an exception that escapes to the while-level except handler
(a json.loads failure inside the for-loop, or a failing final
completion). The handler prints the error and the loop continues with
the messages appended so far. -/
inductive TurnExit where
  | completed
  | aborted (e : String)
deriving Repr, DecidableEq

/-- The for-loop over response_msg.tool_calls. json_loads models
json.loads applied to the arguments string of the call; it is evaluated
outside the inner try, so a parse failure raises out of the for-loop,
appending no tool message for that call and executing no later call.
exec models mcp_client.call_tool(name, args), which the inner try guards
so it never escapes. Returns the messages and executed calls accumulated
so far and, when a parse failed, its error. -/
def turn_calls (json_loads : String → Except String Json)
    (exec : String → Json → Except String (List String)) :
    List ToolCall → List ChatMessage → List ToolCall →
    List ChatMessage × List ToolCall × Option String
  | [], msgs, done => (msgs, done, none)
  | tool_call :: rest, msgs, done =>
    let name := tool_call.function.name
    match json_loads tool_call.function.arguments with
    | .error e => (msgs, done, some e)
    | .ok args =>
      let output := tool_output (exec name args)
      turn_calls json_loads exec rest
        (msgs ++ [.toolMsg tool_call.id name output]) (done ++ [tool_call])

/-- One iteration of the inner while loop of run_chat_loop after the
user message and first completion: messages already holds the user
message, response_msg is the completion answer, json_loads and exec are
as in turn_calls, and final is the outcome of the second
chat.completions.create call. Returns the new messages list, the tool
calls executed in execution order, and how the turn ended. -/
def process_turn (json_loads : String → Except String Json)
    (messages : List ChatMessage) (response_msg : AssistantMessage)
    (exec : String → Json → Except String (List String))
    (final : Except String (Option String)) :
    List ChatMessage × List ToolCall × TurnExit :=
  if response_msg.tool_calls.isEmpty then
    (messages ++ [.assistantMsg response_msg], [], .completed)
  else
    let messages := messages ++ [.assistantMsg response_msg]
    match turn_calls json_loads exec response_msg.tool_calls messages [] with
    | (msgs, done, some e) => (msgs, done, .aborted e)
    | (msgs, done, none) =>
      match final with
      | .error e => (msgs, done, .aborted e)
      | .ok final_text => (msgs ++ [.assistantText final_text], done, .completed)

/-! ## client.py: the re-authentication retry loop -/

/-- What one full connection attempt of run_chat_loop does, as seen from
the retry loop: the with-block either runs to a normal return, raises
ClientNotFoundError, or raises some other exception. -/
inductive AttemptOutcome where
  | finished
  | clientNotFound
  | failed (e : String)
deriving Repr, DecidableEq

/-- How run_chat_loop terminates. -/
inductive LoopExit where
  | returned
  | raisedClientNotFound
  | raisedOther (e : String)
deriving Repr, DecidableEq

/-- The for-loop of run_chat_loop over attempt = 0, 1, ..., with remaining
iterations left; storage is the content of the token-storage directory.
On ClientNotFoundError the directory is removed and recreated empty, and
when attempt == max_retries - 1 (remaining = 0 after this iteration) the
error is re-raised; falling off the loop is a normal return. The third
component counts connection attempts executed. -/
def chat_loop_go (outcomes : Nat → AttemptOutcome) :
    Nat → Nat → List String → LoopExit × List String × Nat
  | _, 0, storage => (.returned, storage, 0)
  | attempt, remaining + 1, _storage =>
    match outcomes attempt with
    | .finished => (.returned, _storage, 1)
    | .failed e => (.raisedOther e, _storage, 1)
    | .clientNotFound =>
      let storage : List String := []
      if remaining == 0 then
        (.raisedClientNotFound, storage, 1)
      else
        let rest := chat_loop_go outcomes (attempt + 1) remaining storage
        (rest.1, rest.2.1, rest.2.2 + 1)

/-- max_retries = 2 in run_chat_loop. -/
def max_retries : Nat := 2

/-- The retry structure of run_chat_loop, starting at attempt 0 with the
given token-storage directory content. -/
def run_chat_loop (outcomes : Nat → AttemptOutcome) (storage : List String) :
    LoopExit × List String × Nat :=
  chat_loop_go outcomes 0 max_retries storage

/-! ## Concrete sample inputs used by witness checks -/

/-- A user object with an access_token.token attribute holding "tok". -/
def sample_user : User :=
  { is_authenticated := true, access_token_token := some (some "tok"), token := none }

/-- A context whose request carries sample_user. -/
def sample_ctx : Context := ⟨some ⟨⟨some sample_user⟩⟩⟩

/-- A sample server configuration. -/
def sample_cfg : ServerConfig := ⟨"client-id", "client-secret"⟩

/-- The credentials get_calendar_service builds from sample_cfg and
sample_ctx with no provider scopes attribute. -/
def sample_creds : Credentials :=
  { token := "tok"
    token_uri := "https://oauth2.googleapis.com/token"
    client_id := "client-id"
    client_secret := "client-secret"
    scopes := default_scopes }

/-- A sample calendar event with a dateTime start and a summary. -/
def sample_event : Event := ⟨⟨some "2025-01-01T10:00:00Z", none⟩, some "Meeting"⟩

/-- A list environment whose API returns exactly sample_event. -/
def sample_list_env : ListEnv := ⟨.ok sample_ctx, fun _ => .ok ⟨some [sample_event]⟩, "NOW"⟩

/-- A list environment whose API response has no items key. -/
def sample_empty_env : ListEnv := ⟨.ok sample_ctx, fun _ => .ok ⟨none⟩, "NOW"⟩

/-- An environment in which every variable is set to a non-empty string. -/
def env_ok : Env := fun _ => some "value"

/-- An environment in which GOOGLE_CLIENT_ID is present but empty and
every other variable is a non-empty string. -/
def env_bad : Env := fun k => if k == "GOOGLE_CLIENT_ID" then some "" else some "value"

/-- A concrete json.loads oracle: it accepts the empty-object string
"\x7b\x7d" and rejects every other input with the error message
json.loads raises on non-JSON text. -/
def sample_json_loads : String → Except String Json := fun s =>
  if s == "\x7b\x7d" then .ok (Json.obj [])
  else .error "Expecting value: line 1 column 1 (char 0)"

/-- A tool call whose arguments string is valid JSON. -/
def sample_good_call : ToolCall := ⟨"call-1", ⟨"list_upcoming_events", "\x7b\x7d"⟩⟩

/-- A tool call whose arguments string is not valid JSON. -/
def sample_bad_call : ToolCall := ⟨"call-bad", ⟨"create_event", "not json"⟩⟩

/-! ## Helper lemmas -/

theorem truthy_str_eq_false_iff (o : Option String) :
    truthy_str o = false ↔ o = none ∨ o = some "" := by
  cases o with
  | none => simp [truthy_str]
  | some s =>
    simp only [truthy_str, Bool.not_eq_false', beq_iff_eq, Option.some.injEq]
    constructor
    · exact fun h => Or.inr h
    · rintro (h | h)
      · exact absurd h (by simp)
      · exact h

/-! ## Claims -/

/-- C1: get_calendar_service raises a ToolError exactly when the request
context is absent, the user is missing or not authenticated, or no access
token can be extracted (the extracted value is None or empty); otherwise
it returns the calendar client built from credentials carrying the
extracted access token. -/
theorem c1_get_calendar_service_spec (cfg : ServerConfig)
    (provider_scopes : Option (List String)) (ctx : Context) :
    ((∃ e, get_calendar_service cfg provider_scopes ctx = .error e) ↔
      (ctx.request_context = none ∨
        ∃ rc, ctx.request_context = some rc ∧
          (rc.request.user = none ∨
            ∃ u, rc.request.user = some u ∧
              (u.is_authenticated = false ∨ truthy_str (extract_access_token u) = false)))) ∧
    (∀ rc u t, ctx.request_context = some rc → rc.request.user = some u →
      u.is_authenticated = true → extract_access_token u = some t → t ≠ "" →
      get_calendar_service cfg provider_scopes ctx = .ok (build_calendar
        { token := t
          token_uri := "https://oauth2.googleapis.com/token"
          client_id := cfg.google_client_id
          client_secret := cfg.google_client_secret
          scopes := provider_scopes.getD default_scopes })) := by
  obtain ⟨rco⟩ := ctx
  constructor
  · cases rco with
    | none => simp [get_calendar_service, get_calendar_service_inner]
    | some rc =>
      obtain ⟨⟨uo⟩⟩ := rc
      cases uo with
      | none => simp [get_calendar_service, get_calendar_service_inner]
      | some u =>
        by_cases ha : u.is_authenticated
        · by_cases ht : truthy_str (extract_access_token u)
          · simp [get_calendar_service, get_calendar_service_inner, ha, ht]
          · simp only [Bool.not_eq_true] at ht
            simp [get_calendar_service, get_calendar_service_inner, ha, ht]
        · simp only [Bool.not_eq_true] at ha
          simp [get_calendar_service, get_calendar_service_inner, ha]
  · intro rc u t hrc hu hauth hext hne
    cases hrc
    simp [get_calendar_service, get_calendar_service_inner, hu, hauth, hext,
      truthy_str, hne]

/-- Witness for C1 at a concrete authenticated context. -/
theorem c1_witness :
    get_calendar_service sample_cfg none sample_ctx = .ok (build_calendar sample_creds) :=
  (c1_get_calendar_service_spec sample_cfg none sample_ctx).2 ⟨⟨some sample_user⟩⟩
    sample_user "tok" rfl rfl rfl rfl (by decide)

/-- C10: every credentials object built by get_calendar_service holds
exactly the extracted access token, the fixed Google token URI, the
configured client id and secret, and the provider scopes defaulting to
the calendar.events scope, and its refresh token is none. -/
theorem c10_credentials_contents (cfg : ServerConfig)
    (provider_scopes : Option (List String)) (ctx : Context) (s : CalendarService)
    (h : get_calendar_service cfg provider_scopes ctx = .ok s) :
    s.credentials.refresh_token = none ∧
    s.credentials.token_uri = "https://oauth2.googleapis.com/token" ∧
    s.credentials.client_id = cfg.google_client_id ∧
    s.credentials.client_secret = cfg.google_client_secret ∧
    s.credentials.scopes = provider_scopes.getD default_scopes ∧
    ∃ rc u, ctx.request_context = some rc ∧ rc.request.user = some u ∧
      extract_access_token u = some s.credentials.token := by
  obtain ⟨rco⟩ := ctx
  cases rco with
  | none => simp [get_calendar_service, get_calendar_service_inner] at h
  | some rc =>
    obtain ⟨⟨uo⟩⟩ := rc
    cases uo with
    | none => simp [get_calendar_service, get_calendar_service_inner] at h
    | some u =>
      by_cases ha : u.is_authenticated
      · by_cases ht : truthy_str (extract_access_token u)
        · cases hext : extract_access_token u with
          | none => rw [hext] at ht; simp [truthy_str] at ht
          | some t =>
            rw [hext] at ht
            have hne : ¬(t = "") := by simpa [truthy_str] using ht
            simp [get_calendar_service, get_calendar_service_inner, ha, hext,
              truthy_str, hne] at h
            subst h
            exact ⟨rfl, rfl, rfl, rfl, rfl, ⟨⟨some u⟩⟩, u, rfl, rfl, hext⟩
        · simp only [Bool.not_eq_true] at ht
          simp [get_calendar_service, get_calendar_service_inner, ha, ht] at h
      · simp only [Bool.not_eq_true] at ha
        simp [get_calendar_service, get_calendar_service_inner, ha] at h

/-- Witness for C10 at a concrete successful construction. -/
theorem c10_witness :
    (build_calendar sample_creds).credentials.refresh_token = none ∧
    (build_calendar sample_creds).credentials.token_uri = "https://oauth2.googleapis.com/token" ∧
    (build_calendar sample_creds).credentials.client_id = sample_cfg.google_client_id ∧
    (build_calendar sample_creds).credentials.client_secret = sample_cfg.google_client_secret ∧
    (build_calendar sample_creds).credentials.scopes = (none : Option (List String)).getD default_scopes ∧
    ∃ rc u, sample_ctx.request_context = some rc ∧ rc.request.user = some u ∧
      extract_access_token u = some (build_calendar sample_creds).credentials.token :=
  c10_credentials_contents sample_cfg none sample_ctx (build_calendar sample_creds) rfl

/-- C5: the server registers exactly two tools, list_upcoming_events and
create_event, with the descriptions tying them to listing events from and
creating an event in the primary calendar; no other tool is added. -/
theorem c5_registered_tools :
    registered_tools.length = 2 ∧
    registered_tools.map RegisteredTool.name = ["list_upcoming_events", "create_event"] ∧
    registered_tools.map RegisteredTool.description =
      ["List upcoming events from the primary calendar.",
       "Create a new event in the primary calendar."] :=
  ⟨rfl, rfl, rfl⟩

/-- Counterexample to C7 as stated: an environment in which both
GOOGLE_CLIENT_ID and GOOGLE_CLIENT_SECRET are present (GOOGLE_CLIENT_ID
being the empty string) yet the server module-level check still raises,
because the code tests Python truthiness, not presence. -/
theorem c7_counterexample :
    env_bad "GOOGLE_CLIENT_ID" ≠ none ∧ env_bad "GOOGLE_CLIENT_SECRET" ≠ none ∧
    server_config_check env_bad =
      .error "Missing required env variables: GOOGLE_CLIENT_ID or GOOGLE_CLIENT_SECRET." := by
  refine ⟨?_, ?_, rfl⟩ <;> simp [env_bad]

/-- C7 (amended): the server check raises a ValueError exactly when
GOOGLE_CLIENT_ID or GOOGLE_CLIENT_SECRET is missing or empty, and the
client check raises exactly when OPENAI_API_KEY is missing or empty. -/
theorem c7_config_check (env : Env) :
    ((∃ e, server_config_check env = .error e) ↔
      (env "GOOGLE_CLIENT_ID" = none ∨ env "GOOGLE_CLIENT_ID" = some "" ∨
       env "GOOGLE_CLIENT_SECRET" = none ∨ env "GOOGLE_CLIENT_SECRET" = some "")) ∧
    ((∃ e, client_config_check env = .error e) ↔
      (env "OPENAI_API_KEY" = none ∨ env "OPENAI_API_KEY" = some "")) := by
  constructor
  · constructor
    · intro he
      obtain ⟨e, he⟩ := he
      by_cases h1 : truthy_str (env "GOOGLE_CLIENT_ID")
      · by_cases h2 : truthy_str (env "GOOGLE_CLIENT_SECRET")
        · simp [server_config_check, h1, h2] at he
        · rcases (truthy_str_eq_false_iff _).mp (by simpa using h2) with h | h
          · exact Or.inr (Or.inr (Or.inl h))
          · exact Or.inr (Or.inr (Or.inr h))
      · rcases (truthy_str_eq_false_iff _).mp (by simpa using h1) with h | h
        · exact Or.inl h
        · exact Or.inr (Or.inl h)
    · intro hd
      have hfalse :
          (truthy_str (env "GOOGLE_CLIENT_ID") && truthy_str (env "GOOGLE_CLIENT_SECRET")) =
            false := by
        rcases hd with h | h | h | h
        · simp [(truthy_str_eq_false_iff _).mpr (Or.inl h)]
        · simp [(truthy_str_eq_false_iff _).mpr (Or.inr h)]
        · simp [(truthy_str_eq_false_iff _).mpr (Or.inl h)]
        · simp [(truthy_str_eq_false_iff _).mpr (Or.inr h)]
      exact ⟨"Missing required env variables: GOOGLE_CLIENT_ID or GOOGLE_CLIENT_SECRET.",
        by simp [server_config_check, hfalse]⟩
  · constructor
    · intro he
      obtain ⟨e, he⟩ := he
      by_cases h1 : truthy_str (env "OPENAI_API_KEY")
      · simp [client_config_check, h1] at he
      · exact (truthy_str_eq_false_iff _).mp (by simpa using h1)
    · intro hd
      have hfalse : truthy_str (env "OPENAI_API_KEY") = false :=
        (truthy_str_eq_false_iff _).mpr hd
      exact ⟨"OPENAI_API_KEY not found in.env", by simp [client_config_check, hfalse]⟩

/-- Witness for C7 (amended) at a fully populated environment: neither
check raises. -/
theorem c7_witness :
    ¬(∃ e, server_config_check env_ok = .error e) ∧
    ¬(∃ e, client_config_check env_ok = .error e) := by
  have h := c7_config_check env_ok
  constructor
  · intro he
    rcases h.1.mp he with h1 | h1 | h1 | h1 <;> simp [env_ok] at h1
  · intro he
    rcases h.2.mp he with h1 | h1 <;> simp [env_ok] at h1

/-- C4: when the API returns a non-empty item list, list_upcoming_events
returns one text result: the line "Upcoming events:" followed by one line
per event, in order, of the form "- start: summary", with start the
dateTime of the event start or, if absent, its date, and summary the
event summary or "No Title" if absent. -/
theorem c4_list_upcoming_format (cfg : ServerConfig)
    (provider_scopes : Option (List String)) (arguments : ListArguments)
    (env : ListEnv) (ctx : Context) (events : List Event)
    (hctx : env.ctx = .ok ctx)
    (hsvc : ∃ s, get_calendar_service cfg provider_scopes ctx = .ok s)
    (hapi : env.api (list_upcoming_query arguments env.now) = .ok ⟨some events⟩)
    (hne : events ≠ []) :
    list_upcoming_events_run cfg provider_scopes arguments env =
      text_result (String.intercalate "\n"
        ("Upcoming events:" ::
          events.map (fun event =>
            "- " ++ py_str_of_opt
              (match event.start.dateTime with
               | some s => some s
               | none => event.start.date) ++
            ": " ++ event.summary.getD "No Title"))) := by
  obtain ⟨s, hs⟩ := hsvc
  simp only [list_upcoming_events_run, hctx, hs, hapi, Option.getD_some,
    List.isEmpty_iff, hne, if_false, reduceIte]
  rfl

/-- Witness for C4 at a concrete one-event API response. -/
theorem c4_witness :
    list_upcoming_events_run sample_cfg none ⟨none, none⟩ sample_list_env =
      text_result "Upcoming events:\n- 2025-01-01T10:00:00Z: Meeting" := by
  have h := c4_list_upcoming_format sample_cfg none ⟨none, none⟩ sample_list_env
    sample_ctx [sample_event] rfl ⟨build_calendar sample_creds, rfl⟩ rfl (by simp)
  exact h.trans (by decide)

/-- Counterexample to C9 as stated: with time_min supplied as the empty
string, the lower time bound of the query is the current UTC time, not
the supplied argument, because the code tests Python truthiness. -/
theorem c9_counterexample :
    (list_upcoming_query ⟨none, some ""⟩ "2025-06-01T00:00:00Z").timeMin =
      "2025-06-01T00:00:00Z" ∧
    (list_upcoming_query ⟨none, some ""⟩ "2025-06-01T00:00:00Z").timeMin ≠ "" := by
  refine ⟨rfl, ?_⟩
  decide

/-- C9 (amended): with no items (missing or empty), the tool returns the
text "No upcoming events found."; the query maximum result count is
max_results defaulting to 10, and the lower time bound is time_min when
supplied and non-empty, otherwise the current UTC time. -/
theorem c9_list_defaults (cfg : ServerConfig)
    (provider_scopes : Option (List String)) (arguments : ListArguments)
    (env : ListEnv) :
    (∀ ctx events_result, env.ctx = .ok ctx →
      (∃ s, get_calendar_service cfg provider_scopes ctx = .ok s) →
      env.api (list_upcoming_query arguments env.now) = .ok events_result →
      events_result.items.getD [] = [] →
      list_upcoming_events_run cfg provider_scopes arguments env =
        text_result "No upcoming events found.") ∧
    (list_upcoming_query arguments env.now).maxResults = arguments.max_results.getD 10 ∧
    ((arguments.time_min = none ∨ arguments.time_min = some "") →
      (list_upcoming_query arguments env.now).timeMin = env.now) ∧
    (∀ s, arguments.time_min = some s → s ≠ "" →
      (list_upcoming_query arguments env.now).timeMin = s) := by
  refine ⟨?_, rfl, ?_, ?_⟩
  · intro ctx events_result hctx hsvc hapi hempty
    obtain ⟨s, hs⟩ := hsvc
    simp [list_upcoming_events_run, hctx, hs, hapi, hempty]
  · intro h
    have hf : truthy_str arguments.time_min = false := (truthy_str_eq_false_iff _).mpr h
    simp [list_upcoming_query, hf]
  · intro s hsome hne
    have ht : truthy_str (some s) = true := by simp [truthy_str, hne]
    simp [list_upcoming_query, hsome, ht]

/-- Witness for C9 (amended) at a concrete empty API response with
defaulted arguments. -/
theorem c9_witness :
    list_upcoming_events_run sample_cfg none ⟨none, none⟩ sample_empty_env =
      text_result "No upcoming events found." ∧
    (list_upcoming_query ⟨none, none⟩ sample_empty_env.now).maxResults = 10 ∧
    (list_upcoming_query ⟨none, none⟩ sample_empty_env.now).timeMin = "NOW" := by
  have h := c9_list_defaults sample_cfg none ⟨none, none⟩ sample_empty_env
  refine ⟨h.1 sample_ctx ⟨none⟩ rfl ⟨build_calendar sample_creds, rfl⟩ rfl rfl, h.2.1, ?_⟩
  exact h.2.2.1 (Or.inl rfl)

theorem foldl_append_singleton_eq_map {α β : Type} (f : α → β) (l : List α)
    (acc : List β) :
    l.foldl (fun acc t => acc ++ [f t]) acc = acc ++ l.map f := by
  induction l generalizing acc with
  | nil => simp
  | cons x xs ih => simp [List.foldl_cons, ih]

theorem convert_mcp_to_openai_tools_eq_map (mcp_tools : List MCPTool) :
    convert_mcp_to_openai_tools mcp_tools =
      mcp_tools.map (fun tool =>
        { type := "function"
          function := { name := tool.name
                        description := tool.description
                        parameters := tool.inputSchema } }) := by
  simpa using foldl_append_singleton_eq_map
    (fun tool => ({ type := "function"
                    function := { name := tool.name
                                  description := tool.description
                                  parameters := tool.inputSchema } } : OpenAITool))
    mcp_tools []

/-- C6: convert_mcp_to_openai_tools is length- and order-preserving, and
its i-th output is a function-typed dict whose name, description and
parameters are the i-th input tool's name, description and inputSchema,
unchanged. -/
theorem c6_convert_mcp_to_openai_tools (mcp_tools : List MCPTool) :
    (convert_mcp_to_openai_tools mcp_tools).length = mcp_tools.length ∧
    ∀ i : Nat, (convert_mcp_to_openai_tools mcp_tools)[i]? =
      (mcp_tools[i]?).map (fun (tool : MCPTool) =>
        ({ type := "function"
           function := { name := tool.name
                         description := tool.description
                         parameters := tool.inputSchema } } : OpenAITool)) := by
  rw [convert_mcp_to_openai_tools_eq_map]
  refine ⟨List.length_map _ _, fun i => ?_⟩
  simp [List.getElem?_map]

/-- Witness for C6 at a concrete singleton tool list. -/
theorem c6_witness :
    (convert_mcp_to_openai_tools [⟨"list_upcoming_events", "List events.", .null⟩]).length = 1 ∧
    (convert_mcp_to_openai_tools [⟨"list_upcoming_events", "List events.", .null⟩])[0]? =
      some { type := "function"
             function := { name := "list_upcoming_events"
                           description := "List events."
                           parameters := .null } } := by
  have h := c6_convert_mcp_to_openai_tools [⟨"list_upcoming_events", "List events.", .null⟩]
  exact ⟨h.1, h.2 0⟩

theorem turn_calls_all_parsed (json_loads : String → Except String Json)
    (exec : String → Json → Except String (List String))
    (calls : List ToolCall) (msgs : List ChatMessage) (done : List ToolCall)
    (hjson : ∀ tc ∈ calls, ∃ a, json_loads tc.function.arguments = .ok a) :
    turn_calls json_loads exec calls msgs done =
      (msgs ++ calls.map (fun tc =>
        ChatMessage.toolMsg tc.id tc.function.name
          (tool_output (exec tc.function.name
            ((json_loads tc.function.arguments).toOption.getD Json.null)))),
       done ++ calls, none) := by
  induction calls generalizing msgs done with
  | nil => simp [turn_calls]
  | cons c cs ih =>
    obtain ⟨a, ha⟩ := hjson c (by simp)
    have hrest : ∀ tc ∈ cs, ∃ a, json_loads tc.function.arguments = .ok a :=
      fun tc htc => hjson tc (List.mem_cons_of_mem c htc)
    simp [turn_calls, ha, ih _ _ hrest, Except.toOption, List.append_assoc]

/-- Counterexample to C3 as stated: a turn whose first requested tool
call carries an arguments string that is not valid JSON. json.loads is
evaluated outside the inner try, so the exception escapes the for-loop
and aborts the turn: no tool message is appended, neither call is
executed, and no final completion is requested, while the claim promises
one tool message and one execution per requested call followed by a
final assistant message. -/
theorem c3_counterexample :
    process_turn sample_json_loads [] ⟨none, [sample_bad_call, sample_good_call]⟩
      (fun _ _ => .ok ["out"]) (.ok (some "done")) =
      ([ChatMessage.assistantMsg ⟨none, [sample_bad_call, sample_good_call]⟩], [],
        .aborted "Expecting value: line 1 column 1 (char 0)") ∧
    ([] : List ToolCall) ≠ [sample_bad_call, sample_good_call] := by
  refine ⟨by decide, by decide⟩

/-- C3 (amended): in a turn whose completion response contains tool
calls, each of whose arguments strings parses as JSON, and whose final
completion succeeds, the client appends the assistant message, then one
tool-role message per requested call in order, carrying the call id,
name and stringified execution output, then the final completion content
as an assistant message; the executed calls are exactly the requested
calls, in order, each once. A call whose arguments fail to parse aborts
the turn before the inner try. -/
theorem c3_tool_call_turn (json_loads : String → Except String Json)
    (messages : List ChatMessage) (response_msg : AssistantMessage)
    (exec : String → Json → Except String (List String))
    (final_text : Option String)
    (h : response_msg.tool_calls ≠ [])
    (hjson : ∀ tc ∈ response_msg.tool_calls,
      ∃ a, json_loads tc.function.arguments = .ok a) :
    process_turn json_loads messages response_msg exec (.ok final_text) =
      (messages ++ [.assistantMsg response_msg]
        ++ response_msg.tool_calls.map (fun tc =>
          ChatMessage.toolMsg tc.id tc.function.name
            (tool_output (exec tc.function.name
              ((json_loads tc.function.arguments).toOption.getD Json.null))))
        ++ [.assistantText final_text],
       response_msg.tool_calls, .completed) := by
  simp [process_turn, List.isEmpty_iff, h,
    turn_calls_all_parsed json_loads exec response_msg.tool_calls _ _ hjson,
    List.append_assoc]

/-- Witness for C3 (amended) at a concrete single well-formed call. -/
theorem c3_witness :
    process_turn sample_json_loads [ChatMessage.userMsg "ask"]
      ⟨none, [sample_good_call]⟩ (fun _ _ => .ok ["out"]) (.ok (some "done")) =
      ([ChatMessage.userMsg "ask",
        ChatMessage.assistantMsg ⟨none, [sample_good_call]⟩,
        ChatMessage.toolMsg "call-1" "list_upcoming_events" "out",
        ChatMessage.assistantText (some "done")],
       [sample_good_call], .completed) := by
  have h := c3_tool_call_turn sample_json_loads [ChatMessage.userMsg "ask"]
    ⟨none, [sample_good_call]⟩ (fun _ _ => .ok ["out"]) (some "done")
    (by simp)
    (by
      intro tc htc
      simp only [List.mem_singleton] at htc
      subst htc
      exact ⟨Json.obj [], rfl⟩)
  exact h.trans (by decide)

theorem run_chat_loop_eq (outcomes : Nat → AttemptOutcome) (storage : List String) :
    run_chat_loop outcomes storage =
      match outcomes 0 with
      | .finished => (.returned, storage, 1)
      | .failed e => (.raisedOther e, storage, 1)
      | .clientNotFound =>
        match outcomes 1 with
        | .finished => (.returned, [], 2)
        | .failed e => (.raisedOther e, [], 2)
        | .clientNotFound => (.raisedClientNotFound, [], 2) := by
  cases h0 : outcomes 0 <;> cases h1 : outcomes 1 <;>
    simp [run_chat_loop, max_retries, chat_loop_go, h0, h1]

/-- C2: at most one re-authentication retry. A ClientNotFoundError on the
first attempt clears the token-storage directory and triggers exactly one
further attempt; a ClientNotFoundError on that second attempt is
re-raised; any other exception propagates without a retry; no run makes
more than two attempts. -/
theorem c2_retry_once (outcomes : Nat → AttemptOutcome) (storage : List String) :
    (outcomes 0 = .finished → run_chat_loop outcomes storage = (.returned, storage, 1)) ∧
    (∀ e, outcomes 0 = .failed e →
      run_chat_loop outcomes storage = (.raisedOther e, storage, 1)) ∧
    (outcomes 0 = .clientNotFound →
      (outcomes 1 = .clientNotFound →
        run_chat_loop outcomes storage = (.raisedClientNotFound, [], 2)) ∧
      (outcomes 1 = .finished → run_chat_loop outcomes storage = (.returned, [], 2)) ∧
      (∀ e, outcomes 1 = .failed e →
        run_chat_loop outcomes storage = (.raisedOther e, [], 2))) ∧
    (run_chat_loop outcomes storage).2.2 ≤ 2 := by
  rw [run_chat_loop_eq]
  refine ⟨?_, ?_, ?_, ?_⟩
  · intro h0; simp [h0]
  · intro e h0; simp [h0]
  · intro h0
    refine ⟨?_, ?_, ?_⟩
    · intro h1; simp [h0, h1]
    · intro h1; simp [h0, h1]
    · intro e h1; simp [h0, h1]
  · cases h0 : outcomes 0 <;> cases h1 : outcomes 1 <;> simp [h0, h1]

/-- Witness for C2: two consecutive ClientNotFoundError attempts clear
the storage, make exactly two attempts, and re-raise. -/
theorem c2_witness :
    run_chat_loop (fun _ => AttemptOutcome.clientNotFound) ["tokens.json"] =
      (.raisedClientNotFound, [], 2) :=
  (((c2_retry_once (fun _ => AttemptOutcome.clientNotFound) ["tokens.json"]).2.2.1 rfl).1) rfl

/-- C8 at its failing input: when get_context() itself raises,
CreateEvent.run does not return a ToolResult; the except handler
evaluates ctx.session_id with the local ctx unbound and the resulting
UnboundLocalError escapes to the caller. -/
theorem c8_create_event_unbound_ctx :
    create_event_run sample_cfg none
      ⟨some "Standup", some "2025-01-01T10:00:00Z", some "2025-01-01T11:00:00Z", none⟩
      ⟨.error "RuntimeError: No active context found.", fun _ => .ok ⟨some "link"⟩⟩ =
      .raised "UnboundLocalError: local variable ctx referenced before assignment" := rfl

end GCal
